import Mathlib

/-!
# Verification of go-callvis `main.go` against its specification

Shallow embedding of the control flow of `main.go` (flag defaults, the
`outputDot` pipeline driver, the gin HTTP handlers `/options` and `/module`,
and the `main` startup sequence), with theorems settling the spec claims.

Calls into code outside `main.go` (`Analysis.ProcessListArgs`,
`Analysis.Render`, `ioutil.WriteFile`, `dotToImage`, `Analysis.DoAnalysis`)
are embedded as fallible inputs (`Except` values supplied in an environment),
so the theorems quantify over every possible outcome of those calls.
The options-store methods (`OptsSetup`, `OverrideByHTTP`,
`UpdateOptUnMarshal`, `GetOptMarshal`) are not in `main.go`; they are
modelled from the spec (OptionsStore, section 4.7) and from the source
comment at their call site.
-/

/-- The flag record of `main.go`: one field per command-line flag declared in
the `var` block (lines 34-52) and in `init` (lines 54-62). `nodesep` is a Go
`float64`; its exact default `0.35` is representable, so it is embedded as a
rational. -/
structure Options where
  focusFlag : String
  groupFlag : String
  limitFlag : String
  ignoreFlag : String
  includeFlag : String
  nostdFlag : Bool
  nointerFlag : Bool
  testFlag : Bool
  graphvizFlag : Bool
  httpFlag : String
  skipBrowser : Bool
  outputFile : String
  outputFormat : String
  cacheDir : String
  debugFlag : Bool
  minlen : Nat
  nodesep : ℚ
  nodeshape : String
  nodestyle : String
  rankdir : String
  deriving Repr, DecidableEq

/-- The default value of every flag, exactly as declared in `main.go`
(`flag.String`/`flag.Bool` defaults in lines 34-52, `flag.UintVar` etc. in
`init`, lines 57-61). -/
def flagDefaults : Options :=
  { focusFlag := "main"
    groupFlag := "pkg"
    limitFlag := ""
    ignoreFlag := ""
    includeFlag := ""
    nostdFlag := true
    nointerFlag := true
    testFlag := false
    graphvizFlag := false
    httpFlag := ":7878"
    skipBrowser := false
    outputFile := ""
    outputFormat := "svg"
    cacheDir := ""
    debugFlag := true
    minlen := 2
    nodesep := 35 / 100
    nodeshape := "box"
    nodestyle := "filled,rounded"
    rankdir := "LR" }

/-- C9: When no flags are supplied, the defaults are focus = "main",
group = "pkg", nostd = true, nointer = true, tests = false, format = "svg",
minlen = 2, nodesep = 0.35, nodeshape = "box", nodestyle = "filled,rounded",
rankdir = "LR"; in particular standard-library exclusion (`nostd`) and
unexported-function exclusion (`nointer`) are on by default. -/
theorem C9_flag_defaults :
    flagDefaults.focusFlag = "main" ∧
    flagDefaults.groupFlag = "pkg" ∧
    flagDefaults.nostdFlag = true ∧
    flagDefaults.nointerFlag = true ∧
    flagDefaults.testFlag = false ∧
    flagDefaults.outputFormat = "svg" ∧
    flagDefaults.minlen = 2 ∧
    flagDefaults.nodesep = 0.35 ∧
    flagDefaults.nodeshape = "box" ∧
    flagDefaults.nodestyle = "filled,rounded" ∧
    flagDefaults.rankdir = "LR" := by
  refine ⟨rfl, rfl, rfl, rfl, rfl, rfl, rfl, ?_, rfl, rfl, rfl⟩
  norm_num [flagDefaults]

/-- Result of running one fallible call from `outputDot` / `main`: in Go a
`nil` error is `.ok` and a non-nil error is `.error` with its message. -/
def exceptFailed : Except String α → Bool
  | .error _ => true
  | .ok _ => false

/-- The outcomes of the four fallible calls `outputDot` makes, in source
order (`main.go` lines 92-116): `Analysis.ProcessListArgs()`,
`Analysis.Render()`, `ioutil.WriteFile(fname+".gv", output, 0755)` and
`dotToImage(fname, outputFormat, output)`. Their implementations live
outside `main.go`, so each is an input. `render` carries the dot output
bytes, `dotToImage` the image path. -/
structure PipelineEnv where
  processListArgs : Except String Unit
  render : Except String (List UInt8)
  writeFile : Except String Unit
  dotToImage : Except String String
  deriving Repr

/-- What becomes of the process after a piece of code runs: `fatal msg`
embeds `log.Fatalf` (print and `os.Exit(1)` — the entire process dies, in
whatever goroutine the call happens), `ok` means control returns normally. -/
inductive ProcOutcome where
  | fatal (msg : String)
  | ok
  deriving Repr, DecidableEq

def ProcOutcome.isFatal : ProcOutcome → Bool
  | .fatal _ => true
  | .ok => false

/-- `outputDot` (`main.go` lines 92-116): runs `ProcessListArgs`, `Render`,
`WriteFile` and `dotToImage` in order and calls `log.Fatalf` — killing the
whole process — on the first one that returns an error. -/
def outputDot (_fname : String) (_outputFormat : String)
    (env : PipelineEnv) : ProcOutcome :=
  match env.processListArgs with
  | .error e => .fatal e
  | .ok _ =>
    match env.render with
    | .error e => .fatal e
    | .ok _output =>
      match env.writeFile with
      | .error e => .fatal e
      | .ok _ =>
        match env.dotToImage with
        | .error e => .fatal e
        | .ok _ => .ok

/-- True when at least one of the four pipeline stages invoked by
`outputDot` fails. -/
def PipelineEnv.hasFailure (env : PipelineEnv) : Bool :=
  exceptFailed env.processListArgs || exceptFailed env.render ||
    exceptFailed env.writeFile || exceptFailed env.dotToImage

/-- `outputDot` is process-fatal exactly when some stage fails. -/
theorem outputDot_isFatal_iff (fname fmt : String) (env : PipelineEnv) :
    (outputDot fname fmt env).isFatal = env.hasFailure := by
  obtain ⟨p, r, w, d⟩ := env
  cases p <;> cases r <;> cases w <;> cases d <;>
    simp [outputDot, PipelineEnv.hasFailure, exceptFailed, ProcOutcome.isFatal]

/-- Applies one key/value override to the options value, merging only
recognized keys; an unrecognized key is ignored, not an error
(spec 4.7: `applyOverrides`). Boolean keys parse "true"/"false". -/
def applyKV (o : Options) (kv : String × String) : Options :=
  match kv.1 with
  | "focus" => { o with focusFlag := kv.2 }
  | "group" => { o with groupFlag := kv.2 }
  | "limit" => { o with limitFlag := kv.2 }
  | "ignore" => { o with ignoreFlag := kv.2 }
  | "include" => { o with includeFlag := kv.2 }
  | "nostd" => { o with nostdFlag := kv.2 == "true" }
  | "nointer" => { o with nointerFlag := kv.2 == "true" }
  | "tests" => { o with testFlag := kv.2 == "true" }
  | "format" => { o with outputFormat := kv.2 }
  | "nodeshape" => { o with nodeshape := kv.2 }
  | "nodestyle" => { o with nodestyle := kv.2 }
  | "rankdir" => { o with rankdir := kv.2 }
  | _ => o

/-- Modelled from the spec: `Analysis.UpdateOptUnMarshal` (implementation
outside `main.go`) deserializes a caller-supplied override payload and
merges it into the current Options value, applying only recognized keys
(spec 4.7: `deserialize` + `applyOverrides`, "unrecognized keys are
ignored, not errors"). The deserialized payload is embedded as a list of
key/value pairs; the empty list embeds the empty payload string. -/
def UpdateOptUnMarshal (o : Options) (payload : List (String × String)) :
    Options :=
  payload.foldl applyKV o

/-- Modelled from the spec: `Analysis.GetOptMarshal` (implementation outside
`main.go`) serializes the current Options value for transport (spec 4.7:
`serialize`). The serialized form is embedded as a canonical key/value
list, injective in the pipeline-affecting fields. -/
def GetOptMarshal (o : Options) : List (String × String) :=
  [("focus", o.focusFlag), ("group", o.groupFlag), ("limit", o.limitFlag),
   ("ignore", o.ignoreFlag), ("include", o.includeFlag),
   ("nostd", if o.nostdFlag then "true" else "false"),
   ("nointer", if o.nointerFlag then "true" else "false"),
   ("tests", if o.testFlag then "true" else "false"),
   ("format", o.outputFormat), ("nodeshape", o.nodeshape),
   ("nodestyle", o.nodestyle), ("rankdir", o.rankdir)]

/-- Modelled from the spec and the source comment at the call site
(`main.go` line 132: "get cmdline default for analysis"):
`Analysis.OptsSetup` resets the analysis options to the values parsed from
the command-line flags, discarding whatever the store held before. -/
def OptsSetup (cmdline : Options) : Options := cmdline

/-- Modelled from the spec: `Analysis.OverrideByHTTP` (implementation
outside `main.go`) applies the request's query parameters as option
overrides, merging only recognized keys (spec 4.7: `applyOverrides`). -/
def OverrideByHTTP (o : Options) (query : List (String × String)) : Options :=
  UpdateOptUnMarshal o query

/-- The response the `/options` handler writes: `c.String(http.StatusOK,
opts)`. -/
structure OptionsResponse where
  status : Nat
  body : List (String × String)
  deriving Repr, DecidableEq

/-- The `GET /options` handler of `ginServer` (`main.go` lines 121-129):
reads the "opts" form value; if it is nonempty, unmarshals and merges it
into the options store; then marshals the current store and answers 200
with it. Returns (store after the request, response). -/
def optionsHandler (store : Options) (updateOpts : List (String × String)) :
    Options × OptionsResponse :=
  let store' :=
    if 0 < updateOpts.length then UpdateOptUnMarshal store updateOpts
    else store
  (store', { status := 200, body := GetOptMarshal store' })

/-- The redirect the `/module` handler sends:
`c.Redirect(http.StatusMovedPermanently, ...)`. -/
structure ModuleResponse where
  redirectStatus : Nat
  redirectLocation : String
  deriving Repr, DecidableEq

/-- A pipeline run launched with `go outputDot(fname, format)`: `snapshot`
is the Options value in effect when it was spawned (its fingerprint
component), `async := true` records that the spawning statement does not
wait for it. -/
structure SpawnedRun where
  snapshot : Options
  fname : String
  format : String
  async : Bool
  deriving Repr, DecidableEq

/-- The `GET /module` handler of `ginServer` (`main.go` lines 130-141):
resets the options store to the command-line defaults (`Analysis.OptsSetup`),
applies the request's own HTTP overrides (`Analysis.OverrideByHTTP`),
unconditionally spawns one `outputDot` goroutine, and immediately responds
301 to the fixed viewer URL. Returns (store after the request, the spawned
run, response). The pre-request store is a parameter so theorems can state
what the handler does (and does not do) with it. -/
def moduleHandler (cmdline : Options) (_store : Options)
    (query : List (String × String)) :
    Options × SpawnedRun × ModuleResponse :=
  let opts := OverrideByHTTP (OptsSetup cmdline) query
  (opts,
   { snapshot := opts
     fname := "./static/data/go-callvis_export"
     format := "dot"
     async := true },
   { redirectStatus := 301
     redirectLocation := "http://localhost:8000/root/test.html" })

/-- One request-triggered render in service mode: the `/module` handler
responds, and the goroutine it spawned then runs `outputDot` against the
given stage outcomes. Returns (response, store after, outcome of the
spawned run for the whole process). -/
def serveModule (cmdline store : Options) (query : List (String × String))
    (env : PipelineEnv) : ModuleResponse × Options × ProcOutcome :=
  let h := moduleHandler cmdline store query
  (h.2.2, h.1, outputDot h.2.1.fname h.2.1.format env)

/-- Serving a batch of concurrent `/module` requests: the handler body has
no cache lookup, no fingerprint check and no coordination — every request
spawns its own `outputDot` goroutine from the same pre-request store. -/
def serveAll (cmdline store : Options)
    (reqs : List (List (String × String))) : List SpawnedRun :=
  reqs.map fun q => (moduleHandler cmdline store q).2.1

/-- One step of `main` (`main.go` lines 147-179), in the order the main
goroutine reaches it. `spawnGinServer` is `go ginServer()`: it only starts
the server goroutine and does not wait for anything — the HTTP control loop
runs concurrently with every later event. `exitVersion` / `exitUsage` embed
`os.Exit(0)` / `os.Exit(2)`, `fatalExit` embeds `log.Fatal` (exit status 1),
`sleep n` embeds `time.Sleep` of `n` seconds. -/
inductive MainEvent where
  | spawnGinServer
  | parseFlags
  | exitVersion
  | exitUsage (code : Nat)
  | doAnalysis
  | fatalExit (msg : String)
  | runOutputDot
  | sleep (seconds : Nat)
  deriving Repr, DecidableEq

/-- Whether the event blocks the main goroutine until the work it names is
finished. `go ginServer()` is the one non-blocking statement: the server it
launches begins accepting requests without main waiting for it. -/
def MainEvent.blocking : MainEvent → Bool
  | .spawnGinServer => false
  | _ => true

/-- The inputs `main` is run against: the parsed `-version` flag, the number
of positional arguments, the outcome of `Analysis.DoAnalysis` (implemented
outside `main.go`), and the outcomes of the four calls the startup
`outputDot` run makes. -/
structure MainInputs where
  version : Bool
  nArg : Nat
  doAnalysis : Except String Unit
  pipeline : PipelineEnv
  deriving Repr

/-- The sequence of events the main goroutine executes, in source order
(`main.go` lines 147-179): spawn the gin server, parse flags, handle
`-version`, reject a wrong argument count with usage and exit 2, run
`DoAnalysis` (fatal on error), run `outputDot` (fatal on any stage error),
then sleep for one hour. An exit event is always the last event of the
trace. -/
def mainTrace (inp : MainInputs) : List MainEvent :=
  [.spawnGinServer, .parseFlags] ++
    (if inp.version then [.exitVersion]
     else if inp.nArg ≠ 1 then [.exitUsage 2]
     else
       .doAnalysis ::
         (match inp.doAnalysis with
          | .error e => [.fatalExit e]
          | .ok _ =>
            .runOutputDot ::
              (match outputDot "./static/data/go-callvis_export" "dot"
                  inp.pipeline with
               | .fatal e => [.fatalExit e]
               | .ok => [.sleep 3600])))

/-- The exit status a trace ends in: `none` when the trace does not end in
an exit event (the process is still alive, e.g. inside the one-hour sleep).
`os.Exit(0)` for `-version`, `os.Exit(2)` for bad usage, status 1 for
`log.Fatal`. -/
def traceExit : List MainEvent → Option Nat
  | [] => none
  | [e] =>
    match e with
    | .exitVersion => some 0
    | .exitUsage c => some c
    | .fatalExit _ => some 1
    | _ => none
  | _ :: e :: es => traceExit (e :: es)

/-- The exit status `main`'s trace ends in. -/
def mainExit (inp : MainInputs) : Option Nat :=
  traceExit (mainTrace inp)

/-- True when the trace launches the HTTP server with a non-blocking event
strictly before it executes the startup pipeline run: the server goroutine
is then accepting requests while the startup run has not yet finished. -/
def servingPrecedesStartupRun (inp : MainInputs) : Bool :=
  let tr := mainTrace inp
  (MainEvent.runOutputDot ∈ tr : Bool) &&
    decide (tr.indexOf MainEvent.spawnGinServer <
      tr.indexOf MainEvent.runOutputDot) &&
    !(MainEvent.blocking .spawnGinServer)

/-- A pipeline environment in which every stage succeeds. -/
def envOk : PipelineEnv :=
  { processListArgs := .ok ()
    render := .ok []
    writeFile := .ok ()
    dotToImage := .ok "out.svg" }

/-- A pipeline environment in which the Render stage fails. -/
def envRenderFail : PipelineEnv :=
  { processListArgs := .ok ()
    render := .error "renderer failed"
    writeFile := .ok ()
    dotToImage := .ok "" }

/-- C1, counterexample: the claim says a pipeline failure during a
request-triggered render in service mode leaves the process alive. At the
concrete request below (empty query against the default store) whose Render
stage fails, the `outputDot` goroutine spawned by the `/module` handler
calls `log.Fatalf`, which terminates the whole process — so the claim is
false. -/
theorem C1_counterexample :
    ((serveModule flagDefaults flagDefaults [] envRenderFail).2.2).isFatal
      = true := rfl

/-- C1, amended: in service mode, a pipeline failure during a
request-triggered render (any failing stage of the spawned `outputDot` run)
terminates the whole process via `log.Fatalf`, exactly as in batch mode;
the control loop does not survive it and serves no subsequent request. -/
theorem C1_service_failure_kills_process (cmdline store : Options)
    (query : List (String × String)) (env : PipelineEnv)
    (h : env.hasFailure = true) :
    ((serveModule cmdline store query env).2.2).isFatal = true := by
  show (outputDot "./static/data/go-callvis_export" "dot" env).isFatal = true
  rw [outputDot_isFatal_iff]
  exact h

/-- Witness for `C1_service_failure_kills_process` at a concrete failing
environment. -/
theorem C1_witness :
    (PipelineEnv.hasFailure
      { processListArgs := .error "focus package not found"
        render := .ok []
        writeFile := .ok ()
        dotToImage := .ok "" } = true) ∧
    ((serveModule flagDefaults flagDefaults [("focus", "main")]
      { processListArgs := .error "focus package not found"
        render := .ok []
        writeFile := .ok ()
        dotToImage := .ok "" }).2.2).isFatal = true :=
  ⟨rfl, C1_service_failure_kills_process flagDefaults flagDefaults
    [("focus", "main")] _ rfl⟩

/-- C3, counterexample: the claim says two concurrent render triggers with
identical Options cause exactly one pipeline computation for that
fingerprint. Serving two identical concrete requests spawns two separate
`outputDot` runs, both carrying the same Options snapshot (hence the same
fingerprint) — so the claim is false. -/
theorem C3_counterexample :
    (serveAll flagDefaults flagDefaults [[], []]).length = 2 ∧
    (serveAll flagDefaults flagDefaults [[], []]).map SpawnedRun.snapshot
      = [flagDefaults, flagDefaults] :=
  ⟨rfl, rfl⟩

/-- C3, amended: the `/module` handler performs no per-fingerprint
deduplication at all — every render-trigger request unconditionally spawns
its own pipeline computation (one spawned run per request), and the
snapshot of each run is determined by the command-line defaults and that
request's own query alone, so concurrent requests with identical Options
spawn duplicate computations for the same fingerprint. -/
theorem C3_every_request_spawns_own_run (cmdline store : Options)
    (reqs : List (List (String × String))) :
    (serveAll cmdline store reqs).length = reqs.length ∧
    (serveAll cmdline store reqs).map SpawnedRun.snapshot
      = reqs.map fun q => OverrideByHTTP (OptsSetup cmdline) q := by
  constructor
  · simp [serveAll]
  · simp [serveAll, moduleHandler]

/-- C4: every render-trigger request launches the pipeline run
asynchronously (`go outputDot(...)`) and immediately responds with an HTTP
301 redirect to the fixed viewer location; the response is independent of
the pipeline run's outcome, i.e. it is sent once the run is triggered, not
once it completes. -/
theorem C4_redirect_once_triggered (cmdline store : Options)
    (query : List (String × String)) (env env' : PipelineEnv) :
    (moduleHandler cmdline store query).2.2 =
      { redirectStatus := 301
        redirectLocation := "http://localhost:8000/root/test.html" } ∧
    (moduleHandler cmdline store query).2.1.async = true ∧
    (serveModule cmdline store query env).1 =
      (serveModule cmdline store query env').1 :=
  ⟨rfl, rfl, rfl⟩

/-- C5, counterexample: the claim says the render trigger snapshots the
live store's current value, so previously merged overrides are reflected.
Concretely: after an option-exchange merge sets focus to
"github.com/acme/lib" in the store, a render trigger with an empty query
uses a snapshot whose focus is back to the default "main" — the previously
merged override is discarded, so the claim is false. -/
theorem C5_counterexample :
    (UpdateOptUnMarshal flagDefaults
      [("focus", "github.com/acme/lib")]).focusFlag = "github.com/acme/lib" ∧
    ((moduleHandler flagDefaults
        (UpdateOptUnMarshal flagDefaults [("focus", "github.com/acme/lib")])
        []).2.1.snapshot).focusFlag = "main" ∧
    (moduleHandler flagDefaults
        (UpdateOptUnMarshal flagDefaults [("focus", "github.com/acme/lib")])
        []).2.1.snapshot ≠
      UpdateOptUnMarshal flagDefaults [("focus", "github.com/acme/lib")] := by
  refine ⟨rfl, rfl, ?_⟩
  decide

/-- C5, amended: a render-trigger request does not snapshot the live
store's current value: `OptsSetup` first resets the options to the
command-line defaults and only the request's own HTTP query overrides are
then applied, so the snapshot equals defaults-plus-request-overrides and is
independent of whatever the store held — overrides previously merged via
the option-exchange endpoint are discarded. -/
theorem C5_snapshot_resets_to_cmdline (cmdline store store' : Options)
    (query : List (String × String)) :
    (moduleHandler cmdline store query).2.1.snapshot =
      OverrideByHTTP (OptsSetup cmdline) query ∧
    (moduleHandler cmdline store query).2.1.snapshot =
      (moduleHandler cmdline store' query).2.1.snapshot :=
  ⟨rfl, rfl⟩

/-- C6: for every option-exchange request, a nonempty override payload is
merged into the options store before the response is produced, and in all
cases the response is HTTP 200 whose body is the serialized current Options
value of the store (the post-merge value when a payload was supplied). -/
theorem C6_options_exchange (store : Options)
    (payload : List (String × String)) :
    (optionsHandler store payload).1 =
      (if 0 < payload.length then UpdateOptUnMarshal store payload
       else store) ∧
    (optionsHandler store payload).2.body =
      GetOptMarshal
        (if 0 < payload.length then UpdateOptUnMarshal store payload
         else store) ∧
    (optionsHandler store payload).2.status = 200 := by
  by_cases h : 0 < payload.length <;> simp [optionsHandler, h]

/-- C2, counterexample: the claim says no request can be served before the
startup pipeline run finishes. At a concrete fully successful input, `main`
launches the gin server with a non-blocking `go` statement strictly before
it reaches the startup `outputDot` run, so the server is accepting requests
while the startup run has not yet finished — the claim is false. -/
theorem C2_counterexample :
    servingPrecedesStartupRun
      { version := false, nArg := 1, doAnalysis := .ok ()
        pipeline :=
          { processListArgs := .ok (), render := .ok []
            writeFile := .ok (), dotToImage := .ok "out.svg" } } = true := by
  decide

/-- C2, amended: `main` launches the HTTP control loop asynchronously as
its very first statement (`go ginServer()`), before flag parsing and before
the startup pipeline run; the startup run (`DoAnalysis` then `outputDot`)
executes afterwards in the main goroutine and any `DoAnalysis` (GraphModel)
error in it is fatal to the process, but request serving is not blocked on
the startup run's completion. -/
theorem C2_server_launched_before_startup_run (inp : MainInputs)
    (hv : inp.version = false) (hn : inp.nArg = 1) :
    (mainTrace inp).head? = some .spawnGinServer ∧
    MainEvent.blocking .spawnGinServer = false ∧
    MainEvent.doAnalysis ∈ (mainTrace inp).tail ∧
    (exceptFailed inp.doAnalysis = true → mainExit inp = some 1) := by
  refine ⟨rfl, rfl, ?_, ?_⟩
  · cases hda : inp.doAnalysis with
    | error e => simp [mainTrace, hv, hn, hda]
    | ok u =>
      cases ho : outputDot "./static/data/go-callvis_export" "dot"
          inp.pipeline with
      | fatal e => simp [mainTrace, hv, hn, hda, ho]
      | ok => simp [mainTrace, hv, hn, hda, ho]
  · intro hf
    cases hda : inp.doAnalysis with
    | error e => simp [mainExit, mainTrace, hv, hn, hda, traceExit]
    | ok u => rw [hda] at hf; simp [exceptFailed] at hf

/-- Witness for `C2_server_launched_before_startup_run` at a concrete input
whose analysis stage fails. -/
theorem C2_witness :
    ({ version := false, nArg := 1
       doAnalysis := .error "no main package", pipeline := envOk }
        : MainInputs).version = false ∧
    ({ version := false, nArg := 1
       doAnalysis := .error "no main package", pipeline := envOk }
        : MainInputs).nArg = 1 ∧
    (mainTrace
      { version := false, nArg := 1
        doAnalysis := .error "no main package"
        pipeline := envOk }).head? = some .spawnGinServer ∧
    mainExit
      { version := false, nArg := 1
        doAnalysis := .error "no main package", pipeline := envOk }
      = some 1 := by
  have h := C2_server_launched_before_startup_run
    { version := false, nArg := 1
      doAnalysis := .error "no main package", pipeline := envOk }
    rfl rfl
  exact ⟨rfl, rfl, h.1, h.2.2.2 rfl⟩

/-- C7: in batch mode, when the number of positional arguments is not
exactly one, the process prints usage and exits with exit code 2, without
running any analysis or pipeline stage (no `doAnalysis`, no `outputDot` in
the trace). -/
theorem C7_usage_exit_code2 (inp : MainInputs) (hv : inp.version = false)
    (hn : inp.nArg ≠ 1) :
    mainTrace inp = [.spawnGinServer, .parseFlags, .exitUsage 2] ∧
    mainExit inp = some 2 ∧
    MainEvent.doAnalysis ∉ mainTrace inp ∧
    MainEvent.runOutputDot ∉ mainTrace inp := by
  have h1 : mainTrace inp = [.spawnGinServer, .parseFlags, .exitUsage 2] := by
    simp [mainTrace, hv, hn]
  refine ⟨h1, ?_, ?_, ?_⟩
  · show traceExit (mainTrace inp) = some 2
    rw [h1]; decide
  · rw [h1]; decide
  · rw [h1]; decide

/-- Witness for `C7_usage_exit_code2` at zero positional arguments. -/
theorem C7_witness :
    ({ version := false, nArg := 0, doAnalysis := .ok ()
       pipeline := envOk } : MainInputs).version = false ∧
    ({ version := false, nArg := 0, doAnalysis := .ok ()
       pipeline := envOk } : MainInputs).nArg ≠ 1 ∧
    mainExit
      { version := false, nArg := 0, doAnalysis := .ok ()
        pipeline := envOk } = some 2 := by
  have h := C7_usage_exit_code2
    { version := false, nArg := 0, doAnalysis := .ok (), pipeline := envOk }
    rfl (by decide)
  exact ⟨rfl, by decide, h.2.1⟩

/-- C8: in batch mode, a failure in any pipeline stage — analysis
(`DoAnalysis`), rendering (`ProcessListArgs`/`Render`), writing the dot
file, or converting it to an image — terminates the process via
`log.Fatal`, rather than being reported and recovered. -/
theorem C8_batch_failure_fatal (inp : MainInputs) (hv : inp.version = false)
    (hn : inp.nArg = 1)
    (hf : exceptFailed inp.doAnalysis = true ∨
      inp.pipeline.hasFailure = true) :
    mainExit inp = some 1 := by
  cases hda : inp.doAnalysis with
  | error e => simp [mainExit, mainTrace, hv, hn, hda, traceExit]
  | ok u =>
    rcases hf with hf | hf
    · rw [hda] at hf; simp [exceptFailed] at hf
    · have hfat : (outputDot "./static/data/go-callvis_export" "dot"
          inp.pipeline).isFatal = true := by
        rw [outputDot_isFatal_iff]; exact hf
      cases ho : outputDot "./static/data/go-callvis_export" "dot"
          inp.pipeline with
      | fatal e => simp [mainExit, mainTrace, hv, hn, hda, ho, traceExit]
      | ok => rw [ho] at hfat; simp [ProcOutcome.isFatal] at hfat

/-- Witness for `C8_batch_failure_fatal` at a concrete input whose dot-to-
image conversion fails. -/
theorem C8_witness :
    ({ version := false, nArg := 1, doAnalysis := .ok ()
       pipeline :=
         { processListArgs := .ok (), render := .ok []
           writeFile := .ok ()
           dotToImage := .error "exec: dot: not found" } }
        : MainInputs).version = false ∧
    PipelineEnv.hasFailure
      { processListArgs := .ok (), render := .ok [], writeFile := .ok ()
        dotToImage := .error "exec: dot: not found" } = true ∧
    mainExit
      { version := false, nArg := 1, doAnalysis := .ok ()
        pipeline :=
          { processListArgs := .ok (), render := .ok []
            writeFile := .ok ()
            dotToImage := .error "exec: dot: not found" } } = some 1 :=
  ⟨rfl, rfl,
    C8_batch_failure_fatal
      { version := false, nArg := 1, doAnalysis := .ok ()
        pipeline :=
          { processListArgs := .ok (), render := .ok []
            writeFile := .ok ()
            dotToImage := .error "exec: dot: not found" } }
      rfl rfl (Or.inr rfl)⟩

/-- C10: after a successful batch-mode pipeline run the process does not
exit upon completion: the trace ends with a one-hour sleep (3600 seconds)
and no exit event, and the HTTP control loop spawned at startup is still
running — batch mode never terminates promptly on success. -/
theorem C10_batch_success_sleeps (inp : MainInputs)
    (hv : inp.version = false) (hn : inp.nArg = 1)
    (hda : inp.doAnalysis = .ok ()) (hp : inp.pipeline.hasFailure = false) :
    mainTrace inp =
      [.spawnGinServer, .parseFlags, .doAnalysis, .runOutputDot,
       .sleep 3600] ∧
    mainExit inp = none ∧
    MainEvent.spawnGinServer ∈ mainTrace inp := by
  have hfat := outputDot_isFatal_iff "./static/data/go-callvis_export" "dot"
    inp.pipeline
  rw [hp] at hfat
  have h1 : mainTrace inp =
      [.spawnGinServer, .parseFlags, .doAnalysis, .runOutputDot,
       .sleep 3600] := by
    cases ho : outputDot "./static/data/go-callvis_export" "dot"
        inp.pipeline with
    | fatal e => rw [ho] at hfat; simp [ProcOutcome.isFatal] at hfat
    | ok => simp [mainTrace, hv, hn, hda, ho]
  refine ⟨h1, ?_, ?_⟩
  · show traceExit (mainTrace inp) = none
    rw [h1]; decide
  · rw [h1]; decide

/-- Witness for `C10_batch_success_sleeps` at a concrete fully successful
input. -/
theorem C10_witness :
    ({ version := false, nArg := 1, doAnalysis := .ok ()
       pipeline := envOk } : MainInputs).version = false ∧
    PipelineEnv.hasFailure envOk = false ∧
    mainExit
      { version := false, nArg := 1, doAnalysis := .ok ()
        pipeline := envOk } = none :=
  ⟨rfl, rfl,
    (C10_batch_success_sleeps
      { version := false, nArg := 1, doAnalysis := .ok ()
        pipeline := envOk } rfl rfl rfl rfl).2.1⟩
